import Mathlib

/-!
Verification development for the point-cloud mobject module
(`manim/mobject/types/point_cloud_mobject.py`).

The module is embedded shallowly: numpy float arrays become lists of exact
rationals, in-place mutation becomes explicit state passing, and a raised
Python exception becomes an `Err` value returned next to the (already
mutated) state.  Helpers defined outside the given module (the `Mobject`
base class, the color utilities, numpy primitives) are modelled from the
specification; every such definition says so in its doc comment.
-/

set_option autoImplicit false

/-- a 3D point: a row of the `points` array. -/
abbrev Pt : Type := ℚ × ℚ × ℚ

/-- an RGBA color: a row of the `rgbas` array. -/
abbrev RGBA : Type := ℚ × ℚ × ℚ × ℚ

/-- a `colour.Color` value, modelled by its RGB components. -/
abbrev Col : Type := ℚ × ℚ × ℚ

/-- the errors raised by the module.  `argumentMismatch` is the
"points and rgbas must have same shape" exception of `add_points`;
`indexError` is a numpy fancy-indexing failure; `typeMismatch` is the
"All submobjects must be of type PMobject" exception of `check_pmobs`;
`missingSelfArgument` is the Python TypeError raised when an unbound
instance method is called with no argument at all. -/
inductive Err : Type where
  | argumentMismatch : Err
  | indexError : Err
  | typeMismatch : Err
  | missingSelfArgument : Err
deriving DecidableEq

/-- Modelled from the spec: `colorToRGBA(colorSpec, alpha) → RGBA`
(external color utility `color_to_rgba`, not among the sources): the RGB
components of the color followed by the given alpha. -/
def color_to_rgba (c : Col) (alpha : ℚ) : RGBA :=
  (c.1, c.2.1, c.2.2, alpha)

/-- Modelled from the spec: `lerp(a, b, t)` on scalars
(external helper `interpolate` from the bezier utilities, not among the
sources): the affine combination of the endpoints. -/
def lerpQ (a b t : ℚ) : ℚ :=
  (1 - t) * a + t * b

/-- componentwise `lerp` on RGBA rows. -/
def lerpRGBA (x y : RGBA) (t : ℚ) : RGBA :=
  (lerpQ x.1 y.1 t, lerpQ x.2.1 y.2.1 t, lerpQ x.2.2.1 y.2.2.1 t, lerpQ x.2.2.2 y.2.2.2 t)

/-- componentwise `lerp` on 3D points. -/
def lerpPt (x y : Pt) (t : ℚ) : Pt :=
  (lerpQ x.1 y.1 t, lerpQ x.2.1 y.2.1 t, lerpQ x.2.2 y.2.2 t)

/-- elementwise `lerp` on whole color arrays (numpy broadcasts the scalar
`t`; the two arrays must have the same shape). -/
def lerpRGBAList (xs ys : List RGBA) (t : ℚ) : List RGBA :=
  List.zipWith (fun x y => lerpRGBA x y t) xs ys

/-- numpy `np.arange(start, stop, step)` for a positive rational step: the
values `start + k * step` for `0 ≤ k < ⌈(stop - start) / step⌉`.  The
module only ever calls it with a positive step (the infinite-step case
that arises in `PointCloudDot.generate_points` is handled at its use
site). -/
def arangeQ (start stop step : ℚ) : List ℚ :=
  if 0 < step then
    (List.range ⌈(stop - start) / step⌉.toNat).map
      (fun k : ℕ => start + (k : ℚ) * step)
  else []

/-- numpy boolean-mask indexing `arr[mask]`: keeps the rows at the
positions where the mask holds `true`, in order.  numpy requires the mask
and the array to have equal length; the theorems below only use this under
that hypothesis. -/
def maskSelect {α : Type} (mask : List Bool) (xs : List α) : List α :=
  ((mask.zip xs).filter (fun bx => bx.1)).map (fun bx => bx.2)

/-- the state of one `PMobject` node: the parallel `points` and `rgbas`
arrays, the nominal `color`, and the `stroke_width` scalar.  Family-wide
operations below take the node together with the list of its descendants
in depth-first order.  Modelled from the spec: family = self + all
descendants, depth-first; family-wide operations traverse that list and
mutate each node independently (the family helper of the `Mobject` base
class is not among the sources). -/
structure PMobject : Type where
  points : List Pt
  rgbas : List RGBA
  color : Col
  stroke_width : ℚ
deriving DecidableEq

/-- `PMobject.reset_points`: truncates both arrays to empty. -/
def PMobject.reset_points (self : PMobject) : PMobject :=
  { self with points := [], rgbas := [] }

/-- `PMobject.add_points`: the new points are appended to `self.points`
first; only then is an explicit `rgbas` argument checked, so the
"points and rgbas must have same shape" exception is raised with
`self.points` already grown and `self.rgbas` untouched.  When `rgbas` is
absent, every new point receives `color_to_rgba` of the explicit `color`
argument (of `self.color` when that is absent too) at the given `alpha`.
The returned pair is the state of `self` when the call finishes, together
with the raised error if any. -/
def PMobject.add_points (self : PMobject) (points : List Pt)
    (rgbas : Option (List RGBA)) (color : Option Col) (alpha : ℚ) :
    PMobject × Option Err :=
  let num_new_points := points.length
  let m := { self with points := self.points ++ points }
  match rgbas with
  | none =>
    let c := color.getD self.color
    let rg := List.replicate num_new_points (color_to_rgba c alpha)
    ({ m with rgbas := m.rgbas ++ rg }, none)
  | some rg =>
    if rg.length ≠ points.length then (m, some Err.argumentMismatch)
    else ({ m with rgbas := m.rgbas ++ rg }, none)

/-- one family member inside `PMobject.filter_out`: the mask
`to_eliminate = ~condition(points)` is computed from the points (`~` is
numpy negation, so the mask is `true` exactly where the condition is
false), and both arrays are then boolean-mask indexed by it. -/
def filterOutNode (condition : Pt → Bool) (m : PMobject) : PMobject :=
  let to_eliminate := m.points.map (fun p => ! condition p)
  { m with points := maskSelect to_eliminate m.points,
           rgbas := maskSelect to_eliminate m.rgbas }

/-- `PMobject.filter_out`: applies the mask update to every family member
(self at the head of the returned list, descendants after it, in
depth-first order). -/
def PMobject.filter_out (self : PMobject) (descendants : List PMobject)
    (condition : Pt → Bool) : PMobject × List PMobject :=
  (filterOutNode condition self, descendants.map (filterOutNode condition))

/-- a Python number as the program sees it: int-typed or float-typed.
The distinction is observable because numpy accepts int indices but
raises IndexError on float indices even when their value is integral
(`points[2.0]` raises).  The float payload is an exact rational. -/
inductive PyNum : Type where
  | int : ℤ → PyNum
  | float : ℚ → PyNum
deriving DecidableEq

/-- multiplication of a Python number by a Python int, as in
`alpha * (self.get_num_points() - 1)`: an int stays an int, a float
stays a float. -/
def PyNum.mulInt : PyNum → ℤ → PyNum
  | .int a, n => .int (a * n)
  | .float q, n => .float (q * (n : ℚ))

/-- `PMobject.point_from_proportion`: `index = alpha * (N - 1)` with no
rounding; `self.points` is then indexed with that number.  numpy raises
IndexError on ANY float index — integral-valued or not — so a float
`alpha` never returns a point (modelled as `none`); with an int `alpha`
the index is an int and selects the row Python-style (an int in
`[-N, 0)` selects from the end, an out-of-range int raises). -/
def PMobject.point_from_proportion (self : PMobject) (alpha : PyNum) : Option Pt :=
  let n : ℤ := (self.points.length : ℤ)
  match alpha.mulInt (n - 1) with
  | .float _ => none
  | .int i =>
    if 0 ≤ i ∧ i < n then self.points.get? i.toNat
    else if -n ≤ i ∧ i < 0 then self.points.get? (i + n).toNat
    else none

/-- `PMobject.get_stroke_width`. -/
def PMobject.get_stroke_width (self : PMobject) : ℚ :=
  self.stroke_width

/-- `PMobject.set_stroke_width` on the `family=True` path: sets the
scalar on self and on every descendant. -/
def PMobject.set_stroke_width (self : PMobject) (descendants : List PMobject)
    (width : ℚ) : PMobject × List PMobject :=
  ({ self with stroke_width := width },
   descendants.map (fun m => { m with stroke_width := width }))

/-- `PMobject.interpolate_color`: `self.rgbas` becomes the elementwise
`lerp` of the color arrays of the two argument mobjects (numpy requires
the arrays to have the same shape — the caller pre-aligns them), and the
stroke width of self and of every family member is set to the `lerp` of
the two argument stroke widths. -/
def PMobject.interpolate_color (self : PMobject) (descendants : List PMobject)
    (mobject1 mobject2 : PMobject) (alpha : ℚ) : PMobject × List PMobject :=
  let s := { self with rgbas := lerpRGBAList mobject1.rgbas mobject2.rgbas alpha }
  s.set_stroke_width descendants
    (lerpQ mobject1.get_stroke_width mobject2.get_stroke_width alpha)

/-- a candidate member of a `PGroup`: either an actual `PMobject` or a
value of some other type (what `isinstance(m, PMobject)` rejects). -/
inductive Member : Type where
  | pmob : PMobject → Member
  | other : Member
deriving DecidableEq

/-- the `isinstance(m, PMobject)` test. -/
def Member.isPMobject : Member → Bool
  | .pmob _ => true
  | .other => false

/-- a `PGroup` with its attached submobjects. -/
structure PGroup : Type where
  submobjects : List Member
deriving DecidableEq

/-- `PGroup.check_pmobs(self, *pmobs)`: raises the type-mismatch
exception when any of the `pmobs` arguments fails the
`isinstance(m, PMobject)` test.  The `self` argument is never
inspected. -/
def PGroup.check_pmobs (self_arg : Member) (pmobs : List Member) : Option Err :=
  if pmobs.all Member.isPMobject then none else some Err.typeMismatch

/-- `PGroup.from_pmobs(cls, *pmobs)`: the call `cls.check_pmobs(*pmobs)`
goes through the class, so the unbound instance method binds the FIRST
member as `self` and only the remaining members are type-checked; with no
members at all Python raises a TypeError for the missing `self` argument.
When the check passes, an empty group is constructed and every member —
the first included — is attached via `add` (modelled from the spec:
`add` attaches the members as children). -/
def PGroup.from_pmobs (pmobs : List Member) : Except Err PGroup :=
  match pmobs with
  | [] => Except.error Err.missingSelfArgument
  | m :: rest =>
    match PGroup.check_pmobs m rest with
    | some e => Except.error e
    | none => Except.ok { submobjects := m :: rest }

/-- `Mobject1D.add_line`: `length = get_norm(end - start)` (modelled from
the spec: `norm(vector) → scalar`, the external Euclidean length helper;
its exact value is irrational in general, so it is passed here as the
explicit argument `L`, constrained in the theorems by `L = 0` exactly for
a degenerate segment).  With `L = 0` a single point at `start` is
emitted; otherwise the parameter `t` ranges over
`np.arange(0, 1, epsilon / L)` and each sample is
`interpolate(start, end, t)`. -/
def Mobject1D.add_line_points (start finish : Pt) (L epsilon : ℚ) : List Pt :=
  if L = 0 then [start]
  else (arangeQ 0 1 (epsilon / L)).map (fun t => lerpPt start finish t)

/-- some shared concrete inputs for the witnesses and counterexamples. -/
def emptyCloud : PMobject :=
  { points := [], rgbas := [], color := (1, 1, 0), stroke_width := 1 }

/-- a five-point cloud `[p0..p4]` with `pi = (i, 0, 0)`. -/
def exampleCloud5 : PMobject :=
  { points := [(0, 0, 0), (1, 0, 0), (2, 0, 0), (3, 0, 0), (4, 0, 0)],
    rgbas := List.replicate 5 (1, 1, 1, 1),
    color := (1, 1, 0), stroke_width := 1 }

/-- a three-point cloud `[(0,0,0), (1,0,0), (2,0,0)]`. -/
def exampleCloud3 : PMobject :=
  { points := [(0, 0, 0), (1, 0, 0), (2, 0, 0)],
    rgbas := [(1, 1, 1, 1), (1, 1, 1, 1), (1, 1, 1, 1)],
    color := (1, 1, 0), stroke_width := 1 }

/-- the predicate `x < 1.5` of the filtering example. -/
def condXBelow : Pt → Bool := fun p => decide (p.1 < 3 / 2)

theorem lerpQ_zero (a b : ℚ) : lerpQ a b 0 = a := by
  unfold lerpQ; ring

theorem lerpQ_one (a b : ℚ) : lerpQ a b 1 = b := by
  unfold lerpQ; ring

theorem lerpRGBA_zero (x y : RGBA) : lerpRGBA x y 0 = x := by
  unfold lerpRGBA; simp [lerpQ_zero]

theorem lerpRGBA_one (x y : RGBA) : lerpRGBA x y 1 = y := by
  unfold lerpRGBA; simp [lerpQ_one]

theorem lerpPt_zero (x y : Pt) : lerpPt x y 0 = x := by
  unfold lerpPt; simp [lerpQ_zero]

theorem lerpRGBAList_zero (xs : List RGBA) :
    ∀ ys : List RGBA, xs.length = ys.length → lerpRGBAList xs ys 0 = xs := by
  induction xs with
  | nil => intro ys _; rfl
  | cons x xs ih =>
    intro ys h
    cases ys with
    | nil => simp at h
    | cons y ys =>
      show lerpRGBA x y 0 :: lerpRGBAList xs ys 0 = x :: xs
      rw [lerpRGBA_zero, ih ys (by simpa using h)]

theorem lerpRGBAList_one (xs : List RGBA) :
    ∀ ys : List RGBA, xs.length = ys.length → lerpRGBAList xs ys 1 = ys := by
  induction xs with
  | nil =>
    intro ys h
    cases ys with
    | nil => rfl
    | cons y ys => simp at h
  | cons x xs ih =>
    intro ys h
    cases ys with
    | nil => simp at h
    | cons y ys =>
      show lerpRGBA x y 1 :: lerpRGBAList xs ys 1 = y :: ys
      rw [lerpRGBA_one, ih ys (by simpa using h)]

theorem maskSelect_nil {α : Type} (mask : List Bool) :
    maskSelect (α := α) mask [] = [] := by
  cases mask <;> rfl

theorem maskSelect_cons {α : Type} (b : Bool) (mask : List Bool) (x : α) (xs : List α) :
    maskSelect (b :: mask) (x :: xs)
      = if b then x :: maskSelect mask xs else maskSelect mask xs := by
  cases b <;> simp [maskSelect, List.filter_cons]

theorem maskSelect_map_self (c : Pt → Bool) (pts : List Pt) :
    maskSelect (pts.map (fun p => ! c p)) pts = pts.filter (fun p => ! c p) := by
  induction pts with
  | nil => rfl
  | cons p pts ih =>
    simp [List.map_cons, maskSelect_cons, List.filter_cons, ih]

theorem maskSelect_map_zip (c : Pt → Bool) (pts : List Pt) :
    ∀ rgs : List RGBA, pts.length = rgs.length →
      (maskSelect (pts.map (fun p => ! c p)) pts).zip
          (maskSelect (pts.map (fun p => ! c p)) rgs)
        = (pts.zip rgs).filter (fun pr => ! c pr.1) := by
  induction pts with
  | nil => intro rgs _; simp [maskSelect_nil, maskSelect]
  | cons p pts ih =>
    intro rgs h
    cases rgs with
    | nil => simp at h
    | cons r rgs =>
      simp only [List.map_cons, maskSelect_cons, List.zip_cons_cons, List.filter_cons]
      cases hc : c p
      · simpa using congrArg ((p, r) :: ·) (ih rgs (by simpa using h))
      · simpa using ih rgs (by simpa using h)

theorem start_mem_arangeQ (start stop step : ℚ) (hstep : 0 < step) (h : start < stop) :
    start ∈ arangeQ start stop step := by
  unfold arangeQ
  rw [if_pos hstep]
  refine List.mem_map.2 ⟨0, List.mem_range.2 ?_, by simp⟩
  have hx : 0 < (stop - start) / step := div_pos (by linarith) hstep
  have hc : 0 < ⌈(stop - start) / step⌉ := Int.ceil_pos.2 hx
  omega

theorem arangeQ_lt_stop (start stop step : ℚ) (hstep : 0 < step) :
    ∀ t ∈ arangeQ start stop step, t < stop := by
  intro t ht
  unfold arangeQ at ht
  rw [if_pos hstep] at ht
  obtain ⟨k, hk, rfl⟩ := List.mem_map.1 ht
  have hk1 : (k : ℤ) < ⌈(stop - start) / step⌉ := by
    have := List.mem_range.1 hk
    omega
  have hk2 : (k : ℚ) < (stop - start) / step := by
    have h4 : ((k : ℤ) : ℚ) ≤ (⌈(stop - start) / step⌉ : ℚ) - 1 := by
      exact_mod_cast Int.le_sub_one_of_lt hk1
    have h5 : (⌈(stop - start) / step⌉ : ℚ) < (stop - start) / step + 1 :=
      Int.ceil_lt_add_one _
    push_cast at h4
    linarith
  have h6 : (k : ℚ) * step < stop - start := (lt_div_iff₀ hstep).1 hk2
  linarith

/-- C1: the spec claims that `len(points) == len(rgbas)` also holds
whenever a public mutating call raises.  The code of `add_points` appends
the new points BEFORE validating an explicit `rgbas` argument, so at the
moment the "points and rgbas must have same shape" exception is raised
the node is observable with one more point than colors: on an empty
cloud, `add_points([p], rgbas=[c1, c2])` raises with
`len(points) = 1` and `len(rgbas) = 0`. -/
theorem c1_add_points_raises_with_mismatched_lengths :
    (emptyCloud.add_points [(0, 0, 0)]
        (some [(1, 0, 0, 1), (0, 1, 0, 1)]) none 1).2 = some Err.argumentMismatch ∧
    (emptyCloud.add_points [(0, 0, 0)]
        (some [(1, 0, 0, 1), (0, 1, 0, 1)]) none 1).1.points.length = 1 ∧
    (emptyCloud.add_points [(0, 0, 0)]
        (some [(1, 0, 0, 1), (0, 1, 0, 1)]) none 1).1.rgbas.length = 0 := by
  with_unfolding_all decide

/-- C4: `add_points` with an explicit `rgbas` sequence raises the
argument-mismatch error exactly when the length differs from the number
of new points; with equal lengths it raises nothing and both arrays grow
by exactly that number of entries. -/
theorem c4_add_points_length_check (m : PMobject) (pts : List Pt)
    (rg : List RGBA) (alpha : ℚ) :
    (rg.length ≠ pts.length →
      (m.add_points pts (some rg) none alpha).2 = some Err.argumentMismatch) ∧
    (rg.length = pts.length →
      (m.add_points pts (some rg) none alpha).2 = none ∧
      (m.add_points pts (some rg) none alpha).1.points.length
        = m.points.length + pts.length ∧
      (m.add_points pts (some rg) none alpha).1.rgbas.length
        = m.rgbas.length + pts.length) := by
  unfold PMobject.add_points
  constructor
  · intro h
    simp [h]
  · intro h
    simp [h]

/-- C4 witness: a mismatched call on the empty cloud raises the error; a
matched call raises nothing and grows both arrays by one entry. -/
theorem c4_add_points_length_check_witness :
    ((emptyCloud.add_points [(0, 0, 0)]
        (some [(1, 0, 0, 1), (0, 1, 0, 1)]) none 1).2 = some Err.argumentMismatch) ∧
    ((emptyCloud.add_points [(0, 0, 0)] (some [(1, 0, 0, 1)]) none 1).2 = none ∧
     (emptyCloud.add_points [(0, 0, 0)] (some [(1, 0, 0, 1)]) none 1).1.points.length
       = emptyCloud.points.length + [((0 : ℚ), (0 : ℚ), (0 : ℚ))].length ∧
     (emptyCloud.add_points [(0, 0, 0)] (some [(1, 0, 0, 1)]) none 1).1.rgbas.length
       = emptyCloud.rgbas.length + [((0 : ℚ), (0 : ℚ), (0 : ℚ))].length) :=
  ⟨(c4_add_points_length_check emptyCloud [(0, 0, 0)]
      [(1, 0, 0, 1), (0, 1, 0, 1)] 1).1 (by decide),
   (c4_add_points_length_check emptyCloud [(0, 0, 0)] [(1, 0, 0, 1)] 1).2 rfl⟩

/-- C5: with the `rgbas` argument omitted, every one of the new points
receives the single RGBA obtained from the explicit `color` argument if
present (else the base color of the node) at the given `alpha`, and the
new points are appended at the end in their given order; in particular
`add_points([p1, p2, p3], color=C)` on an empty cloud yields
`points = [p1, p2, p3]` and `rgbas = [rgba(C)] * 3`. -/
theorem c5_add_points_default_color (m : PMobject) (pts : List Pt)
    (colorOpt : Option Col) (alpha : ℚ) :
    m.add_points pts none colorOpt alpha
      = ({ m with
            points := m.points ++ pts,
            rgbas := m.rgbas ++ List.replicate pts.length
              (color_to_rgba (colorOpt.getD m.color) alpha) }, none) ∧
    (emptyCloud.add_points [(0, 0, 0), (1, 0, 0), (2, 0, 0)]
        none (some (1, 0, 0)) 1).1.points = [(0, 0, 0), (1, 0, 0), (2, 0, 0)] ∧
    (emptyCloud.add_points [(0, 0, 0), (1, 0, 0), (2, 0, 0)]
        none (some (1, 0, 0)) 1).1.rgbas
      = [color_to_rgba (1, 0, 0) 1, color_to_rgba (1, 0, 0) 1,
         color_to_rgba (1, 0, 0) 1] := by
  refine ⟨rfl, by with_unfolding_all decide, by with_unfolding_all decide⟩

/-- C2 counterexample: the spec example claims
`filter_out(x < 1.5)` on `[(0,0,0), (1,0,0), (2,0,0)]` keeps
`[(0,0,0), (1,0,0)]`; the code keeps the points the predicate rejects, so
it yields `[(2,0,0)]` instead. -/
theorem c2_filter_out_counterexample :
    (exampleCloud3.filter_out [] condXBelow).1.points = [(2, 0, 0)] ∧
    (exampleCloud3.filter_out [] condXBelow).1.points ≠ [(0, 0, 0), (1, 0, 0)] := by
  with_unfolding_all decide

/-- C2 amended: for every family member, `filter_out(predicate)` keeps
exactly those points (with their paired colors) for which the predicate is
FALSE, removes those for which it is true, and preserves the relative
order of the kept entries. -/
theorem c2_filter_out_keeps_predicate_false (self : PMobject)
    (descendants : List PMobject) (condition : Pt → Bool)
    (h : ∀ m ∈ self :: descendants, m.points.length = m.rgbas.length) :
    List.Forall₂
      (fun mOld mNew : PMobject =>
        mNew.points = mOld.points.filter (fun p => ! condition p) ∧
        mNew.points.zip mNew.rgbas
          = (mOld.points.zip mOld.rgbas).filter (fun pr => ! condition pr.1))
      (self :: descendants)
      ((self.filter_out descendants condition).1
        :: (self.filter_out descendants condition).2) := by
  have node : ∀ m : PMobject, m.points.length = m.rgbas.length →
      (filterOutNode condition m).points
          = m.points.filter (fun p => ! condition p) ∧
      (filterOutNode condition m).points.zip (filterOutNode condition m).rgbas
          = (m.points.zip m.rgbas).filter (fun pr => ! condition pr.1) := by
    intro m hm
    constructor
    · exact maskSelect_map_self condition m.points
    · show (maskSelect (m.points.map (fun p => ! condition p)) m.points).zip
          (maskSelect (m.points.map (fun p => ! condition p)) m.rgbas)
        = (m.points.zip m.rgbas).filter (fun pr => ! condition pr.1)
      exact maskSelect_map_zip condition m.points m.rgbas hm
  unfold PMobject.filter_out
  refine List.Forall₂.cons (node self (h self (by simp))) ?_
  rw [List.forall₂_map_right_iff]
  exact List.forall₂_same.2 (fun m hm => node m (h m (by simp [hm])))

/-- C2 amended witness: on the three-point example the kept
(point, color) pairs are exactly those whose point fails `x < 1.5`. -/
theorem c2_filter_out_keeps_predicate_false_witness :
    List.Forall₂
      (fun mOld mNew : PMobject =>
        mNew.points = mOld.points.filter (fun p => ! condXBelow p) ∧
        mNew.points.zip mNew.rgbas
          = (mOld.points.zip mOld.rgbas).filter (fun pr => ! condXBelow pr.1))
      [exampleCloud3]
      ((exampleCloud3.filter_out [] condXBelow).1
        :: (exampleCloud3.filter_out [] condXBelow).2) :=
  c2_filter_out_keeps_predicate_false exampleCloud3 [] condXBelow
    (by with_unfolding_all decide)

/-- C3: the claim says `point_from_proportion(alpha)` returns the point
at index `round(alpha * (N - 1))`, and in particular that `alpha = 0.5`
on a five-point cloud returns the point stored at index 2.  The code has
no rounding: it computes the float `0.5 * 4 = 2.0` and indexes the array
with it, and numpy raises IndexError on float indices regardless of
their value, so the call raises instead of returning the index-2 point —
as it does for every float `alpha`, 0.9 (index 3.6) included.  Only the
int-typed proportions 0 and 1 in `[0, 1]` return a point, at the exact
unrounded index `alpha * (N - 1)`. -/
theorem c3_point_from_proportion_float_index_error :
    exampleCloud5.point_from_proportion (PyNum.float (1 / 2)) = none ∧
    exampleCloud5.points.get? 2 = some (2, 0, 0) ∧
    exampleCloud5.point_from_proportion (PyNum.float (9 / 10)) = none ∧
    exampleCloud5.point_from_proportion (PyNum.int 0) = some (0, 0, 0) ∧
    exampleCloud5.point_from_proportion (PyNum.int 1) = some (4, 0, 0) := by
  with_unfolding_all decide

/-- C7: the claim says group construction fails with the type-mismatch
error whenever ANY member — including the first — is not a `PMobject`,
and attaches nothing in that case.  `cls.check_pmobs(*pmobs)` calls the
unbound instance method through the class, binding the first member as
`self`, so a sole non-`PMobject` member passes the check and is attached;
only non-first members are actually validated. -/
theorem c7_from_pmobs_first_member_unchecked :
    PGroup.from_pmobs [Member.other]
      = Except.ok { submobjects := [Member.other] } ∧
    PGroup.from_pmobs [Member.other, Member.pmob emptyCloud]
      = Except.ok { submobjects := [Member.other, Member.pmob emptyCloud] } ∧
    PGroup.from_pmobs [Member.pmob emptyCloud, Member.other]
      = Except.error Err.typeMismatch :=
  ⟨rfl, rfl, rfl⟩

/-- C9: with the two color arrays pre-aligned to equal length,
`interpolate_color(a, b, 0)` makes the color array of self equal to the
colors of `a` unchanged and its stroke width equal to the stroke width of
`a`; at `alpha = 1` both equal those of `b`. -/
theorem c9_interpolate_color_endpoints (self : PMobject)
    (descendants : List PMobject) (a b : PMobject)
    (h : a.rgbas.length = b.rgbas.length) :
    ((self.interpolate_color descendants a b 0).1.rgbas = a.rgbas ∧
     (self.interpolate_color descendants a b 0).1.stroke_width
       = a.get_stroke_width) ∧
    ((self.interpolate_color descendants a b 1).1.rgbas = b.rgbas ∧
     (self.interpolate_color descendants a b 1).1.stroke_width
       = b.get_stroke_width) := by
  unfold PMobject.interpolate_color PMobject.set_stroke_width
  refine ⟨⟨?_, ?_⟩, ⟨?_, ?_⟩⟩
  · exact lerpRGBAList_zero a.rgbas b.rgbas h
  · exact lerpQ_zero a.get_stroke_width b.get_stroke_width
  · exact lerpRGBAList_one a.rgbas b.rgbas h
  · exact lerpQ_one a.get_stroke_width b.get_stroke_width

/-- a second three-point cloud with different colors and stroke width,
for the interpolation witness. -/
def exampleCloudB : PMobject :=
  { points := [(5, 0, 0), (6, 0, 0), (7, 0, 0)],
    rgbas := [(0, 0, 1, 1), (0, 1, 0, 1), (1, 0, 0, 1)],
    color := (0, 0, 1), stroke_width := 4 }

/-- C9 witness: concrete two-color mobjects with distinct colors and
stroke widths, pre-aligned to equal length. -/
theorem c9_interpolate_color_endpoints_witness :
    ((emptyCloud.interpolate_color [] exampleCloud3 exampleCloudB 0).1.rgbas
        = exampleCloud3.rgbas ∧
     (emptyCloud.interpolate_color [] exampleCloud3 exampleCloudB 0).1.stroke_width
        = exampleCloud3.get_stroke_width) ∧
    ((emptyCloud.interpolate_color [] exampleCloud3 exampleCloudB 1).1.rgbas
        = exampleCloudB.rgbas ∧
     (emptyCloud.interpolate_color [] exampleCloud3 exampleCloudB 1).1.stroke_width
        = exampleCloudB.get_stroke_width) :=
  c9_interpolate_color_endpoints emptyCloud [] exampleCloud3 exampleCloudB rfl

theorem lerpQ_eq_right (a b t : ℚ) (ht : t ≠ 1) (h : lerpQ a b t = b) : a = b := by
  have h1 : (1 : ℚ) - t ≠ 0 := fun hh => ht (by linarith)
  have f : (1 - t) * (a - b) = 0 := by
    unfold lerpQ at h
    linear_combination h
  exact sub_eq_zero.1 ((mul_eq_zero.1 f).resolve_left h1)

theorem lerpPt_eq_right (x y : Pt) (t : ℚ) (ht : t ≠ 1) (h : lerpPt x y t = y) :
    x = y := by
  simp only [lerpPt, Prod.ext_iff] at h
  obtain ⟨e1, e2, e3⟩ := h
  exact Prod.ext (lerpQ_eq_right _ _ _ ht e1)
    (Prod.ext (lerpQ_eq_right _ _ _ ht e2) (lerpQ_eq_right _ _ _ ht e3))

/-- C10: for a non-degenerate segment (`start ≠ end`, length `L > 0`) and
a positive sampling step, the parameters of `add_line` are exactly
`np.arange(0, 1, epsilon / L)`: `t = 0` is always among them — so the
exact start point is appended — and every parameter is strictly below 1,
so the exact end point is never appended. -/
theorem c10_add_line_half_open_range (start finish : Pt) (L epsilon : ℚ)
    (hne : start ≠ finish) (hL : 0 < L) (he : 0 < epsilon) :
    (0 : ℚ) ∈ arangeQ 0 1 (epsilon / L) ∧
    start ∈ Mobject1D.add_line_points start finish L epsilon ∧
    (∀ t ∈ arangeQ 0 1 (epsilon / L), t < 1) ∧
    finish ∉ Mobject1D.add_line_points start finish L epsilon := by
  have hstep : 0 < epsilon / L := div_pos he hL
  have h0 : (0 : ℚ) ∈ arangeQ 0 1 (epsilon / L) :=
    start_mem_arangeQ 0 1 (epsilon / L) hstep one_pos
  have hlt : ∀ t ∈ arangeQ 0 1 (epsilon / L), t < 1 :=
    arangeQ_lt_stop 0 1 (epsilon / L) hstep
  have hL0 : L ≠ 0 := ne_of_gt hL
  refine ⟨h0, ?_, hlt, ?_⟩
  · unfold Mobject1D.add_line_points
    rw [if_neg hL0]
    exact List.mem_map.2 ⟨0, h0, lerpPt_zero start finish⟩
  · unfold Mobject1D.add_line_points
    rw [if_neg hL0]
    intro hmem
    obtain ⟨t, ht, heq⟩ := List.mem_map.1 hmem
    exact hne (lerpPt_eq_right start finish t (ne_of_lt (hlt t ht)) heq)

/-- C10 witness: the unit segment from the origin sampled with
`epsilon = 1/2` yields parameters `[0, 1/2]`; the start point is emitted
and the end point is not. -/
theorem c10_add_line_half_open_range_witness :
    (0 : ℚ) ∈ arangeQ 0 1 ((1 / 2 : ℚ) / 1) ∧
    ((0 : ℚ), (0 : ℚ), (0 : ℚ)) ∈
      Mobject1D.add_line_points (0, 0, 0) (1, 0, 0) 1 (1 / 2) ∧
    (∀ t ∈ arangeQ 0 1 ((1 / 2 : ℚ) / 1), t < 1) ∧
    ((1 : ℚ), (0 : ℚ), (0 : ℚ)) ∉
      Mobject1D.add_line_points (0, 0, 0) (1, 0, 0) 1 (1 / 2) :=
  c10_add_line_half_open_range (0, 0, 0) (1, 0, 0) 1 (1 / 2)
    (by with_unfolding_all decide) (by with_unfolding_all decide)
    (by with_unfolding_all decide)
